import Mathlib

/-!
Verification of the Pokémon battle core of `gabrielblins/pokemon-agent-system`:
the battle evaluator in `app/utils/pokemon_utils.py` and the battle animation
compositor in `app/utils/visualization_utils.py`.

Shallow embedding conventions:
- Python dicts keyed by type name become `Option`-valued functions on `String`.
- Python floats become `ℚ` (all arithmetic here is exact in the source values).
- Randomness (frame counts, damage-frame sampling, shuffled message lists,
  timestamps) becomes explicit parameters quantified over in the theorems.
- Fallible effects (file reads, HTTP fetches) become `Except`-valued inputs.
-/

namespace PokemonAgent

/-- Python `str.lower()` on the character sequence of the string. -/
def py_lower (s : String) : String := ⟨s.data.map Char.toLower⟩

/-- Python `str.capitalize()`: first character uppercased, rest lowercased. -/
def py_capitalize (s : String) : String :=
  match s.data with
  | [] => ""
  | c :: rest => ⟨Char.toUpper c :: rest.map Char.toLower⟩

/-- Name normalization used by the sprite/cache layer:
lowercasing, then replacing space by hyphen and removing the dot and the
apostrophe characters. -/
def normalize_pokemon_name (s : String) : String :=
  (((py_lower s).replace " " "-").replace "." "").replace "\x27" ""

/-- The six base stats of a Pokémon record (`base_stats` dict). -/
structure BaseStats where
  hp : ℕ
  attack : ℕ
  defense : ℕ
  special_attack : ℕ
  special_defense : ℕ
  speed : ℕ
deriving DecidableEq, Repr

/-- A Pokémon record as produced by `fetch_pokemon_data`. -/
structure PokemonRecord where
  name : String
  base_stats : BaseStats
  types : List String
deriving DecidableEq, Repr

/-- A battle verdict (`battle_result` dict): winner name and reasoning text. -/
structure BattleVerdict where
  winner : String
  reasoning : String
deriving DecidableEq, Repr

/-- Dict `TYPE_ADVANTAGES` from `pokemon_utils.py`: attacking type mapped to the
list of types it is super effective against; `none` models absence from the
Python dict. -/
def TYPE_ADVANTAGES (t : String) : Option (List String) :=
  match t with
  | "normal" => some []
  | "fire" => some ["grass", "ice", "bug", "steel"]
  | "water" => some ["fire", "ground", "rock"]
  | "electric" => some ["water", "flying"]
  | "grass" => some ["water", "ground", "rock"]
  | "ice" => some ["grass", "ground", "flying", "dragon"]
  | "fighting" => some ["normal", "ice", "rock", "dark", "steel"]
  | "poison" => some ["grass", "fairy"]
  | "ground" => some ["fire", "electric", "poison", "rock", "steel"]
  | "flying" => some ["grass", "fighting", "bug"]
  | "psychic" => some ["fighting", "poison"]
  | "bug" => some ["grass", "psychic", "dark"]
  | "rock" => some ["fire", "ice", "flying", "bug"]
  | "ghost" => some ["psychic", "ghost"]
  | "dragon" => some ["dragon"]
  | "dark" => some ["psychic", "ghost"]
  | "steel" => some ["ice", "rock", "fairy"]
  | "fairy" => some ["fighting", "dragon", "dark"]
  | _ => none

/-- Dict `TYPE_IMMUNITIES` from `pokemon_utils.py`: attacking type mapped to the
list of types immune to it. -/
def TYPE_IMMUNITIES (t : String) : Option (List String) :=
  match t with
  | "normal" => some ["ghost"]
  | "electric" => some ["ground"]
  | "fighting" => some ["ghost"]
  | "poison" => some ["steel"]
  | "ground" => some ["flying"]
  | "psychic" => some ["dark"]
  | "ghost" => some ["normal"]
  | "dragon" => some ["fairy"]
  | _ => none

/-- The super-effective list of a type (empty for types absent from the dict). -/
def advantage_list (t : String) : List String := (TYPE_ADVANTAGES t).getD []

/-- The immunity list of a type (empty for types absent from the dict). -/
def immunity_list (t : String) : List String := (TYPE_IMMUNITIES t).getD []

/-- Loop body of `calculate_type_effectiveness`: iterate over the attacker
types, returning 0 as soon as one of them has an immune defender type, and
otherwise doubling the accumulator for every (attacker type, defender type)
super-effective pair. -/
def calc_go (defender_types : List String) : List String → ℚ → ℚ
  | [], effectiveness => effectiveness
  | attacker_type :: rest, effectiveness =>
    let immune : Bool :=
      match TYPE_IMMUNITIES attacker_type with
      | some imm => decide (∃ dtype ∈ defender_types, dtype ∈ imm)
      | none => false
    if immune then 0
    else
      calc_go defender_types rest
        (match TYPE_ADVANTAGES attacker_type with
         | some adv =>
           defender_types.foldl
             (fun eff defender_type =>
               if defender_type ∈ adv then eff * 2 else eff)
             effectiveness
         | none => effectiveness)

/-- Function `calculate_type_effectiveness` from `pokemon_utils.py`. -/
def calculate_type_effectiveness (attacker_types defender_types : List String) : ℚ :=
  calc_go defender_types attacker_types 1


/-- Function `analyze_pokemon_battle` from `pokemon_utils.py`: returns the pair
(winner name, reasoning string). -/
def analyze_pokemon_battle (pokemon1 pokemon2 : PokemonRecord) : String × String :=
  let p1_type_effectiveness := calculate_type_effectiveness pokemon1.types pokemon2.types
  let p2_type_effectiveness := calculate_type_effectiveness pokemon2.types pokemon1.types
  let p1_attack : ℚ := (pokemon1.base_stats.attack : ℚ) * p1_type_effectiveness
  let p1_sp_attack : ℚ := (pokemon1.base_stats.special_attack : ℚ) * p1_type_effectiveness
  let p1_attack_power := max p1_attack p1_sp_attack
  let p2_attack : ℚ := (pokemon2.base_stats.attack : ℚ) * p2_type_effectiveness
  let p2_sp_attack : ℚ := (pokemon2.base_stats.special_attack : ℚ) * p2_type_effectiveness
  let p2_attack_power := max p2_attack p2_sp_attack
  let p1_defense : ℚ :=
    ((pokemon1.base_stats.defense : ℚ) + (pokemon1.base_stats.special_defense : ℚ)) / 2
  let p2_defense : ℚ :=
    ((pokemon2.base_stats.defense : ℚ) + (pokemon2.base_stats.special_defense : ℚ)) / 2
  let p1_effective_hp : ℚ := (pokemon1.base_stats.hp : ℚ) * (p1_defense / 100)
  let p2_effective_hp : ℚ := (pokemon2.base_stats.hp : ℚ) * (p2_defense / 100)
  let p1_turns_to_win := p2_effective_hp / max p1_attack_power 1
  let p2_turns_to_win := p1_effective_hp / max p2_attack_power 1
  let p1_speed := pokemon1.base_stats.speed
  let p2_speed := pokemon2.base_stats.speed
  let type_factor : String :=
    if p2_type_effectiveness < p1_type_effectiveness then
      py_capitalize pokemon1.name ++ " has a type advantage over " ++ py_capitalize pokemon2.name
    else if p1_type_effectiveness < p2_type_effectiveness then
      py_capitalize pokemon2.name ++ " has a type advantage over " ++ py_capitalize pokemon1.name
    else
      "Neither Pokémon has a significant type advantage"
  let speed_factors : List String :=
    if p2_speed < p1_speed then [py_capitalize pokemon1.name ++ " is faster and would attack first"]
    else if p1_speed < p2_speed then [py_capitalize pokemon2.name ++ " is faster and would attack first"]
    else []
  let attack_factors : List String :=
    if p2_attack_power < p1_attack_power then [py_capitalize pokemon1.name ++ " has stronger attacking moves"]
    else if p1_attack_power < p2_attack_power then [py_capitalize pokemon2.name ++ " has stronger attacking moves"]
    else []
  let reasoning_factors := type_factor :: (speed_factors ++ attack_factors)
  let winner :=
    if p1_turns_to_win < p2_turns_to_win then pokemon1.name
    else if p2_turns_to_win < p1_turns_to_win then pokemon2.name
    else if p2_speed < p1_speed then pokemon1.name
    else if p1_speed < p2_speed then pokemon2.name
    else if pokemon2.base_stats.hp < pokemon1.base_stats.hp then pokemon1.name
    else pokemon2.name
  (winner, String.intercalate ". " reasoning_factors ++ ".")

/-- Modelled from the spec: the reference winner algorithm of the claim.
Attack power is max(attack, special_attack) times own effectiveness, effective
bulk is hp * ((defense + special_defense) / 2) / 100, turns-to-win is the
opponent bulk divided by max(own attack power, 1), and the winner is decided
by the ladder: lower turns-to-win, then higher speed, then higher hp, then the
second Pokémon. -/
def spec_battle_winner (pokemon1 pokemon2 : PokemonRecord) : String :=
  let eff1 := calculate_type_effectiveness pokemon1.types pokemon2.types
  let eff2 := calculate_type_effectiveness pokemon2.types pokemon1.types
  let power1 : ℚ := max (pokemon1.base_stats.attack : ℚ) (pokemon1.base_stats.special_attack : ℚ) * eff1
  let power2 : ℚ := max (pokemon2.base_stats.attack : ℚ) (pokemon2.base_stats.special_attack : ℚ) * eff2
  let bulk1 : ℚ := (pokemon1.base_stats.hp : ℚ) *
    (((pokemon1.base_stats.defense : ℚ) + (pokemon1.base_stats.special_defense : ℚ)) / 2) / 100
  let bulk2 : ℚ := (pokemon2.base_stats.hp : ℚ) *
    (((pokemon2.base_stats.defense : ℚ) + (pokemon2.base_stats.special_defense : ℚ)) / 2) / 100
  let turns1 := bulk2 / max power1 1
  let turns2 := bulk1 / max power2 1
  if turns1 < turns2 then pokemon1.name
  else if turns2 < turns1 then pokemon2.name
  else if pokemon2.base_stats.speed < pokemon1.base_stats.speed then pokemon1.name
  else if pokemon1.base_stats.speed < pokemon2.base_stats.speed then pokemon2.name
  else if pokemon2.base_stats.hp < pokemon1.base_stats.hp then pokemon1.name
  else pokemon2.name

/-- Pikachu record as given in the specification example. -/
def pikachu : PokemonRecord :=
  { name := "pikachu"
    base_stats :=
      { hp := 35, attack := 55, defense := 40
        special_attack := 50, special_defense := 50, speed := 90 }
    types := ["electric"] }

/-- Charizard record as given in the specification example. -/
def charizard : PokemonRecord :=
  { name := "charizard"
    base_stats :=
      { hp := 78, attack := 84, defense := 78
        special_attack := 109, special_defense := 85, speed := 100 }
    types := ["fire", "flying"] }

/-! ### Battle animation compositor (`visualization_utils.py`) -/

/-- Result of `get_type_effectiveness`: effectiveness multipliers in both
directions between the two Pokémon. -/
structure TypeEff where
  p1_against_p2 : ℚ
  p2_against_p1 : ℚ
deriving DecidableEq, Repr

/-- The 18-row `type_chart` local to `get_type_effectiveness` in
`visualization_utils.py`: attacking type mapped to its row of explicit
multipliers (0, 0.5 or 2); pairs absent from a row are neutral. -/
def type_chart (t : String) : Option (List (String × ℚ)) :=
  match t with
  | "normal" => some [("rock", 1/2), ("ghost", 0), ("steel", 1/2)]
  | "fire" => some [("fire", 1/2), ("water", 1/2), ("grass", 2), ("ice", 2), ("bug", 2),
      ("rock", 1/2), ("dragon", 1/2), ("steel", 2)]
  | "water" => some [("fire", 2), ("water", 1/2), ("grass", 1/2), ("ground", 2),
      ("rock", 2), ("dragon", 1/2)]
  | "electric" => some [("water", 2), ("electric", 1/2), ("grass", 1/2), ("ground", 0),
      ("flying", 2), ("dragon", 1/2)]
  | "grass" => some [("fire", 1/2), ("water", 2), ("grass", 1/2), ("poison", 1/2),
      ("ground", 2), ("flying", 1/2), ("bug", 1/2), ("rock", 2), ("dragon", 1/2), ("steel", 1/2)]
  | "ice" => some [("fire", 1/2), ("water", 1/2), ("grass", 2), ("ice", 1/2),
      ("ground", 2), ("flying", 2), ("dragon", 2), ("steel", 1/2)]
  | "fighting" => some [("normal", 2), ("ice", 2), ("poison", 1/2), ("flying", 1/2),
      ("psychic", 1/2), ("bug", 1/2), ("rock", 2), ("ghost", 0), ("dark", 2), ("steel", 2),
      ("fairy", 1/2)]
  | "poison" => some [("grass", 2), ("poison", 1/2), ("ground", 1/2), ("rock", 1/2),
      ("ghost", 1/2), ("steel", 0), ("fairy", 2)]
  | "ground" => some [("fire", 2), ("electric", 2), ("grass", 1/2), ("poison", 2),
      ("flying", 0), ("bug", 1/2), ("rock", 2), ("steel", 2)]
  | "flying" => some [("electric", 1/2), ("grass", 2), ("fighting", 2), ("bug", 2),
      ("rock", 1/2), ("steel", 1/2)]
  | "psychic" => some [("fighting", 2), ("poison", 2), ("psychic", 1/2), ("dark", 0),
      ("steel", 1/2)]
  | "bug" => some [("fire", 1/2), ("grass", 2), ("fighting", 1/2), ("poison", 1/2),
      ("flying", 1/2), ("psychic", 2), ("ghost", 1/2), ("dark", 2), ("steel", 1/2),
      ("fairy", 1/2)]
  | "rock" => some [("fire", 2), ("ice", 2), ("fighting", 1/2), ("ground", 1/2),
      ("flying", 2), ("bug", 2), ("steel", 1/2)]
  | "ghost" => some [("normal", 0), ("psychic", 2), ("ghost", 2), ("dark", 1/2)]
  | "dragon" => some [("dragon", 2), ("steel", 1/2), ("fairy", 0)]
  | "dark" => some [("fighting", 1/2), ("psychic", 2), ("ghost", 2), ("dark", 1/2),
      ("fairy", 1/2)]
  | "steel" => some [("fire", 1/2), ("water", 1/2), ("electric", 1/2), ("ice", 2),
      ("rock", 2), ("steel", 1/2), ("fairy", 2)]
  | "fairy" => some [("fighting", 2), ("poison", 1/2), ("bug", 1/2), ("dragon", 2),
      ("dark", 2), ("steel", 1/2)]
  | _ => none

/-- The double loop of `get_type_effectiveness`: multiply the accumulator by
the chart entry for every (attacking type, defending type) pair present in
the chart. -/
def chart_fold (atk_types def_types : List String) : ℚ :=
  atk_types.foldl
    (fun eff attack_type =>
      def_types.foldl
        (fun eff defend_type =>
          match type_chart attack_type with
          | some row =>
            match row.lookup defend_type with
            | some m => eff * m
            | none => eff
          | none => eff)
        eff)
    1

/-- Function `get_type_effectiveness` from `visualization_utils.py`. -/
def get_type_effectiveness (pokemon1_data pokemon2_data : PokemonRecord) : TypeEff :=
  { p1_against_p2 := chart_fold pokemon1_data.types pokemon2_data.types
    p2_against_p1 := chart_fold pokemon2_data.types pokemon1_data.types }

/-- The damage-rate clamp `min(2.0, max(0.5, effectiveness))` used by
`generate_health_decreases` for each side. -/
def rate_clamp (effectiveness : ℚ) : ℚ := min 2 (max (1/2) effectiveness)

/-- One step of `p1_decreases[frame:] += delta`: add `delta` to every index
at or after `frame`. -/
def damage_add (delta : ℚ) (decreases : ℕ → ℚ) (frame : ℕ) : ℕ → ℚ :=
  fun i => if frame ≤ i then decreases i + delta else decreases i

/-- The cumulative decrease array before renormalization: start from zeros and
apply `damage_add` once per damage frame.  Indices at and beyond the frame
count are irrelevant (the Python array has length `num_frames`). -/
def raw_decreases (delta : ℚ) (damage_frames : List ℕ) : ℕ → ℚ :=
  damage_frames.foldl (damage_add delta) (fun _ => 0)

/-- The final renormalization step of `generate_health_decreases`: if the last
entry is positive, rescale so that it equals exactly `1 - final_health`. -/
def renormalize (num_frames : ℕ) (final_health : ℚ) (decreases : ℕ → ℚ) : ℕ → ℚ :=
  if 0 < decreases (num_frames - 1) then
    fun i => decreases i * ((1 - final_health) / decreases (num_frames - 1))
  else decreases

/-- Function `generate_health_decreases` from `visualization_utils.py`, with the two
randomly sampled damage-frame index lists passed explicitly. -/
def generate_health_decreases (num_frames : ℕ) (p1_final_health p2_final_health : ℚ)
    (type_effectiveness : TypeEff) (p1_damage_frames p2_damage_frames : List ℕ) :
    (ℕ → ℚ) × (ℕ → ℚ) :=
  let p1_rate := rate_clamp type_effectiveness.p2_against_p1
  let p2_rate := rate_clamp type_effectiveness.p1_against_p2
  let p1_dec := raw_decreases
    ((1 - p1_final_health) / (p1_damage_frames.length : ℚ) * p1_rate) p1_damage_frames
  let p2_dec := raw_decreases
    ((1 - p2_final_health) / (p2_damage_frames.length : ℚ) * p2_rate) p2_damage_frames
  (renormalize num_frames p1_final_health p1_dec,
   renormalize num_frames p2_final_health p2_dec)

/-- An image as far as the sprite pipeline is concerned: either a fetched and
processed sprite, or the drawn placeholder with its label text. -/
inductive PImage where
  | fetched (data : String)
  | placeholder (label : String)
deriving DecidableEq, Repr

/-- The placeholder image produced at the end of `get_pokemon_sprite`,
labeled with the (normalized) Pokémon name. -/
def placeholder_image (pokemon_name : String) : PImage :=
  PImage.placeholder ("No sprite for\n" ++ pokemon_name)

/-- Function `get_pokemon_sprite`: cache hit returns the cached sprite; otherwise the
resolved sprite URL (or its absence) and the outcome of the fetch-and-process
pipeline decide between the processed sprite and the placeholder.  Any error
in the pipeline is caught and degrades to the placeholder. -/
def get_pokemon_sprite (pokemon_name : String) (cached_sprite : Option PImage)
    (sprite_url : Option String) (fetch : String → Except String PImage) : PImage :=
  let name := normalize_pokemon_name pokemon_name
  match cached_sprite with
  | some sprite => sprite
  | none =>
    match sprite_url with
    | some url =>
      match fetch url with
      | Except.ok sprite => sprite
      | Except.error _ => placeholder_image name
    | none => placeholder_image name

/-- Function `save_cached_data`: the write attempt is wrapped in try/except-pass, so
the function always returns normally. -/
def save_cached_data (cache_key : String) (write_attempt : Except String Unit) :
    Except String Unit :=
  match write_attempt with
  | Except.ok _ => Except.ok ()
  | Except.error _ => Except.ok ()

/-- Function `save_cached_image`: same silent error swallowing as `save_cached_data`. -/
def save_cached_image (cache_key : String) (write_attempt : Except String Unit) :
    Except String Unit :=
  match write_attempt with
  | Except.ok _ => Except.ok ()
  | Except.error _ => Except.ok ()

/-- Function `get_cached_data`: returns the parsed data on a successful read, `none`
when the file is missing or the read/parse raises. -/
def get_cached_data {α : Type} (cache_key : String) (file_exists : Bool)
    (read_attempt : Except String α) : Option α :=
  if file_exists then
    match read_attempt with
    | Except.ok d => some d
    | Except.error _ => none
  else none

/-- The semantic content of one composed battle frame: the two names, the two
displayed health fractions and the message text (`create_battle_frame`
arguments). -/
structure BattleFrame where
  p1Name : String
  p2Name : String
  p1Health : ℚ
  p2Health : ℚ
  message : String
deriving DecidableEq, Repr

/-- The skip condition of the message loop: an attack message naming a
fainted side as actor. -/
def message_blocked (cap1 cap2 : String) (p1_health p2_health : ℚ) (message : String) : Bool :=
  (decide (p1_health ≤ 0) && message.startsWith cap1) ||
  (decide (p2_health ≤ 0) && message.startsWith cap2)

/-- The while loop of the per-frame message selection in
`generate_battle_animation`: advance cyclically past blocked messages, and on
a full wrap-around fall back to the explicit faint announcement.  The fuel
bounds the number of iterations (the Python loop wraps after at most
`len(messages)` steps). -/
def select_loop (messages : List String) (cap1 cap2 : String) (p1_health p2_health : ℚ)
    (start_index : ℕ) : ℕ → ℕ → String
  | message_index, 0 => messages.getD message_index ""
  | message_index, fuel + 1 =>
    let message := messages.getD message_index ""
    if message_blocked cap1 cap2 p1_health p2_health message
        && decide (1 < messages.length) then
      let next_index := (message_index + 1) % messages.length
      if next_index = start_index % messages.length then
        if p1_health ≤ 0 then cap1 ++ " has fainted!"
        else if p2_health ≤ 0 then cap2 ++ " has fainted!"
        else select_loop messages cap1 cap2 p1_health p2_health start_index next_index fuel
      else select_loop messages cap1 cap2 p1_health p2_health start_index next_index fuel
    else message

/-- Message selection for battle frame `i`. -/
def select_battle_message (cap1 cap2 : String) (messages : List String)
    (i : ℕ) (p1_health p2_health : ℚ) : String :=
  select_loop messages cap1 cap2 p1_health p2_health i (i % messages.length)
    (messages.length + 1)

/-- The battle frame built in iteration `i` of the frame loop:
`p_health = max(0, 1.0 - decreases[i])` for each side, plus the selected
message. -/
def battle_frame_at (pokemon1_data pokemon2_data : PokemonRecord) (messages : List String)
    (p1_dec p2_dec : ℕ → ℚ) (i : ℕ) : BattleFrame :=
  let p1_health := max 0 (1 - p1_dec i)
  let p2_health := max 0 (1 - p2_dec i)
  { p1Name := pokemon1_data.name
    p2Name := pokemon2_data.name
    p1Health := p1_health
    p2Health := p2_health
    message := select_battle_message (py_capitalize pokemon1_data.name)
      (py_capitalize pokemon2_data.name) messages i p1_health p2_health }

/-- The battle-frame loop: each iteration appends the frame twice (the code
duplicates every battle frame to double its display time). -/
def battle_frames_list (frame_at : ℕ → BattleFrame) : ℕ → List BattleFrame
  | 0 => []
  | k + 1 => battle_frames_list frame_at k ++ [frame_at k, frame_at k]

/-- Function `generate_battle_animation` from `visualization_utils.py`, abstracted to
the frame contents and output filename.  Random outcomes are parameters:
`num_frames` is `random.randint(12, 15)`, the damage-frame lists are the
`random.sample` outcomes inside `generate_health_decreases`, `messages` is the
shuffled message pool, `timestamp` is `int(time.time())`.  Returns the frame
sequence (intro, doubled battle frames, tripled final frame) and the output
filename. -/
def generate_battle_animation (pokemon1_data pokemon2_data : PokemonRecord)
    (battle_result : BattleVerdict) (num_frames : ℕ)
    (p1_damage_frames p2_damage_frames : List ℕ) (messages : List String)
    (timestamp : ℕ) : List BattleFrame × String :=
  let winner_name := py_lower battle_result.winner
  let reasoning := battle_result.reasoning
  let type_effectiveness := get_type_effectiveness pokemon1_data pokemon2_data
  let intro_frame : BattleFrame :=
    { p1Name := pokemon1_data.name
      p2Name := pokemon2_data.name
      p1Health := 1
      p2Health := 1
      message := "Battle begins! " ++ py_capitalize pokemon1_data.name ++ " vs " ++
        py_capitalize pokemon2_data.name }
  let p1_final_health : ℚ := if winner_name = py_lower pokemon1_data.name then 1/5 else 0
  let p2_final_health : ℚ := if winner_name = py_lower pokemon2_data.name then 1/5 else 0
  let decs := generate_health_decreases num_frames p1_final_health p2_final_health
    type_effectiveness p1_damage_frames p2_damage_frames
  let battle_frames := battle_frames_list
    (battle_frame_at pokemon1_data pokemon2_data messages decs.1 decs.2) num_frames
  let final_frame : BattleFrame :=
    { p1Name := pokemon1_data.name
      p2Name := pokemon2_data.name
      p1Health := p1_final_health
      p2Health := p2_final_health
      message := py_capitalize winner_name ++ " wins the battle! " ++ reasoning.take 100 ++
        (if 100 < reasoning.length then "..." else "") }
  let frames := intro_frame :: (battle_frames ++ [final_frame, final_frame, final_frame])
  (frames, "battle_" ++ toString timestamp ++ ".gif")

/-! ### Helper lemmas -/

lemma foldl_double_nonneg (adv defender_types : List String) (eff : ℚ) (h : 0 ≤ eff) :
    0 ≤ defender_types.foldl
      (fun e defender_type => if defender_type ∈ adv then e * 2 else e) eff := by
  induction defender_types generalizing eff with
  | nil => exact h
  | cons d rest ih =>
    simp only [List.foldl_cons]
    apply ih
    split
    · positivity
    · exact h

lemma calc_go_nonneg (defender_types attacker_types : List String) (eff : ℚ) (h : 0 ≤ eff) :
    0 ≤ calc_go defender_types attacker_types eff := by
  induction attacker_types generalizing eff with
  | nil => exact h
  | cons a rest ih =>
    rw [calc_go]
    split
    · exact le_refl 0
    · apply ih
      split
      · exact foldl_double_nonneg _ _ _ h
      · exact h

/-- The effectiveness multiplier is never negative. -/
lemma calculate_type_effectiveness_nonneg (attacker_types defender_types : List String) :
    0 ≤ calculate_type_effectiveness attacker_types defender_types :=
  calc_go_nonneg _ _ _ zero_le_one

lemma foldl_damage_add_apply (delta : ℚ) (D : List ℕ) (g : ℕ → ℚ) (i : ℕ) :
    (D.foldl (damage_add delta) g) i = g i + (D.countP (fun f => decide (f ≤ i))) * delta := by
  induction D generalizing g with
  | nil => simp
  | cons f rest ih =>
    simp only [List.foldl_cons, List.countP_cons]
    rw [ih]
    unfold damage_add
    by_cases h : f ≤ i
    · simp [h]
      push_cast
      ring
    · simp [h]

lemma raw_decreases_apply (delta : ℚ) (D : List ℕ) (i : ℕ) :
    raw_decreases delta D i = (D.countP (fun f => decide (f ≤ i))) * delta := by
  unfold raw_decreases
  rw [foldl_damage_add_apply]
  simp

lemma side_decreases_eq (n : ℕ) (fH rate : ℚ) (D : List ℕ)
    (hn : 1 ≤ n) (hD : ∀ f ∈ D, f < n) (hlen : 1 ≤ D.length)
    (hf : fH < 1) (hr : 1/2 ≤ rate) :
    renormalize n fH (raw_decreases ((1 - fH) / (D.length : ℚ) * rate) D) =
      fun i => ((D.countP (fun f => decide (f ≤ i))) : ℚ) * (1 - fH) / (D.length : ℚ) := by
  have hk : (0 : ℚ) < (D.length : ℚ) := by exact_mod_cast hlen
  have hfH : 0 < 1 - fH := by linarith
  have hrpos : 0 < rate := by linarith
  have hdelta : 0 < (1 - fH) / (D.length : ℚ) * rate := by positivity
  have hcount_last : D.countP (fun f => decide (f ≤ n - 1)) = D.length := by
    rw [List.countP_eq_length]
    intro f hf'
    have := hD f hf'
    simp
    omega
  have hlast : raw_decreases ((1 - fH) / (D.length : ℚ) * rate) D (n - 1) =
      (D.length : ℚ) * ((1 - fH) / (D.length : ℚ) * rate) := by
    rw [raw_decreases_apply, hcount_last]
  unfold renormalize
  rw [hlast]
  have hpos : 0 < (D.length : ℚ) * ((1 - fH) / (D.length : ℚ) * rate) := by positivity
  rw [if_pos hpos]
  funext i
  rw [raw_decreases_apply]
  have hkne : (D.length : ℚ) ≠ 0 := ne_of_gt hk
  have hdne : (1 - fH) / (D.length : ℚ) * rate ≠ 0 := ne_of_gt hdelta
  field_simp
  ring

lemma side_properties (n : ℕ) (fH rate : ℚ) (D : List ℕ)
    (hn : 1 ≤ n) (hD : ∀ f ∈ D, f < n) (hlen : 1 ≤ D.length)
    (hf0 : 0 ≤ fH) (hf : fH < 1) (hr : 1/2 ≤ rate) :
    (∀ i j, i ≤ j →
      renormalize n fH (raw_decreases ((1 - fH) / (D.length : ℚ) * rate) D) i ≤
      renormalize n fH (raw_decreases ((1 - fH) / (D.length : ℚ) * rate) D) j) ∧
    renormalize n fH (raw_decreases ((1 - fH) / (D.length : ℚ) * rate) D) (n - 1) = 1 - fH ∧
    (∀ i, 0 ≤ 1 - renormalize n fH (raw_decreases ((1 - fH) / (D.length : ℚ) * rate) D) i ∧
      1 - renormalize n fH (raw_decreases ((1 - fH) / (D.length : ℚ) * rate) D) i ≤ 1) := by
  rw [side_decreases_eq n fH rate D hn hD hlen hf hr]
  dsimp only
  have hk : (0 : ℚ) < (D.length : ℚ) := by exact_mod_cast hlen
  have hfH : 0 < 1 - fH := by linarith
  refine ⟨?_, ?_, ?_⟩
  · intro i j hij
    have hmono : D.countP (fun f => decide (f ≤ i)) ≤ D.countP (fun f => decide (f ≤ j)) := by
      apply List.countP_mono_left
      intro a _ ha
      simp at ha ⊢
      omega
    have hmonoq : (D.countP (fun f => decide (f ≤ i)) : ℚ) ≤
        (D.countP (fun f => decide (f ≤ j)) : ℚ) := by exact_mod_cast hmono
    gcongr
  · have hcount_last : D.countP (fun f => decide (f ≤ n - 1)) = D.length := by
      rw [List.countP_eq_length]
      intro f hf'
      have := hD f hf'
      simp
      omega
    rw [hcount_last]
    field_simp
  · intro i
    constructor
    · have hle : (D.countP (fun f => decide (f ≤ i)) : ℚ) * (1 - fH) / (D.length : ℚ) ≤
          (D.length : ℚ) * (1 - fH) / (D.length : ℚ) := by
        gcongr
        · exact_mod_cast List.countP_le_length _
      have h2 : (D.length : ℚ) * (1 - fH) / (D.length : ℚ) = 1 - fH := by field_simp
      nlinarith [hle, h2]
    · have hnn : 0 ≤ (D.countP (fun f => decide (f ≤ i)) : ℚ) * (1 - fH) / (D.length : ℚ) := by
        positivity
      linarith

lemma rate_clamp_bounds (e : ℚ) : 1/2 ≤ rate_clamp e ∧ rate_clamp e ≤ 2 := by
  unfold rate_clamp
  constructor
  · exact le_min (by norm_num) (le_max_left _ _)
  · exact min_le_left _ _

lemma battle_frames_list_length (f : ℕ → BattleFrame) (k : ℕ) :
    (battle_frames_list f k).length = 2 * k := by
  induction k with
  | zero => rfl
  | succ m ih => simp [battle_frames_list, ih]; omega

lemma getLast_cons_append_triple {α : Type} (x a : α) (l : List α) :
    (x :: (l ++ [a, a, a])).getLast? = some a := by
  rw [← List.cons_append, List.getLast?_append_cons]
  rfl

lemma calc_go_immune (defender_types attacker_types : List String) (eff : ℚ)
    (h : ∃ a ∈ attacker_types, ∃ d ∈ defender_types, d ∈ immunity_list a) :
    calc_go defender_types attacker_types eff = 0 := by
  induction attacker_types generalizing eff with
  | nil =>
    obtain ⟨a, ha, -⟩ := h
    exact absurd ha (List.not_mem_nil a)
  | cons a rest ih =>
    obtain ⟨x, hx, d, hd, hdi⟩ := h
    simp only [calc_go]
    rcases List.mem_cons.mp hx with rfl | hxr
    · obtain ⟨imm, himm, hdimm⟩ : ∃ imm, TYPE_IMMUNITIES x = some imm ∧ d ∈ imm := by
        unfold immunity_list at hdi
        cases h' : TYPE_IMMUNITIES x with
        | none => rw [h'] at hdi; simp at hdi
        | some imm =>
          rw [h'] at hdi
          exact ⟨imm, rfl, by simpa using hdi⟩
      rw [himm]
      dsimp only
      have hdec : decide (∃ dtype ∈ defender_types, dtype ∈ imm) = true := by
        simp only [decide_eq_true_eq]
        exact ⟨d, hd, hdimm⟩
      rw [hdec]
      simp
    · split
      · rfl
      · exact ih _ ⟨x, hxr, d, hd, hdi⟩

lemma advantage_not_immune (a d : String) (hadv : d ∈ advantage_list a) :
    d ∉ immunity_list a := by
  unfold advantage_list TYPE_ADVANTAGES at hadv
  unfold immunity_list TYPE_IMMUNITIES
  split at hadv <;>
    simp only [Option.getD_some, Option.getD_none] at hadv <;>
    first
      | exact absurd hadv (List.not_mem_nil d)
      | (fin_cases hadv <;> decide)

lemma calc_go_step_super (a d : String) (rest : List String) (eff : ℚ)
    (h : d ∈ advantage_list a) :
    calc_go [d] (a :: rest) eff = calc_go [d] rest (eff * 2) := by
  have hni := advantage_not_immune a d h
  obtain ⟨adv, hadv, hdadv⟩ : ∃ adv, TYPE_ADVANTAGES a = some adv ∧ d ∈ adv := by
    unfold advantage_list at h
    cases h' : TYPE_ADVANTAGES a with
    | none => rw [h'] at h; simp at h
    | some adv =>
      rw [h'] at h
      exact ⟨adv, rfl, by simpa using h⟩
  simp only [calc_go]
  have himmf : (match TYPE_IMMUNITIES a with
      | some imm => decide (∃ dtype ∈ [d], dtype ∈ imm)
      | none => false) = false := by
    cases h' : TYPE_IMMUNITIES a with
    | none => rfl
    | some imm =>
      dsimp only
      have : d ∉ imm := by
        unfold immunity_list at hni
        rw [h'] at hni
        simpa using hni
      simp [this]
  rw [himmf]
  rw [hadv]
  dsimp only
  simp [hdadv]

/-! ### Claim theorems -/

/-- C1: for every pair of well-formed Pokémon records (complete base stats,
non-empty types), `analyze_pokemon_battle` returns exactly the winner of the
reference algorithm of the spec: attack power `max(attack, special_attack) *
own_effectiveness`, effective bulk `hp * ((defense + special_defense) / 2) /
100`, turns-to-win `opponent_bulk / max(own_attack_power, 1)`, and the
tie-break ladder lower-turns, then higher speed, then higher hp, then the
second Pokémon. -/
theorem battle_winner_matches_spec (p1 p2 : PokemonRecord)
    (h1 : p1.types ≠ []) (h2 : p2.types ≠ []) :
    (analyze_pokemon_battle p1 p2).1 = spec_battle_winner p1 p2 := by
  have e1 := calculate_type_effectiveness_nonneg p1.types p2.types
  have e2 := calculate_type_effectiveness_nonneg p2.types p1.types
  simp only [analyze_pokemon_battle, spec_battle_winner]
  rw [max_mul_of_nonneg _ _ e1, max_mul_of_nonneg _ _ e2]
  ring_nf

/-- Witness for C1 at the concrete pikachu and charizard records. -/
theorem battle_winner_matches_spec_witness :
    (analyze_pokemon_battle pikachu charizard).1 = spec_battle_winner pikachu charizard :=
  battle_winner_matches_spec pikachu charizard (by decide) (by decide)

/-- C2: whenever some attacker type has an immune defender type,
`calculate_type_effectiveness` returns exactly 0, overriding any
super-effective match of another attacker type; in particular
electric versus ground and ground versus flying give 0. -/
theorem immunity_overrides_effectiveness :
    (∀ attacker_types defender_types : List String,
        (∃ a ∈ attacker_types, ∃ d ∈ defender_types, d ∈ immunity_list a) →
        calculate_type_effectiveness attacker_types defender_types = 0) ∧
    calculate_type_effectiveness ["electric"] ["ground"] = 0 ∧
    calculate_type_effectiveness ["ground"] ["flying"] = 0 := by
  refine ⟨?_, ?_, ?_⟩
  · intro atk dfn h
    exact calc_go_immune dfn atk 1 h
  · simp [calculate_type_effectiveness, calc_go, TYPE_ADVANTAGES, TYPE_IMMUNITIES]
  · simp [calculate_type_effectiveness, calc_go, TYPE_ADVANTAGES, TYPE_IMMUNITIES]

/-- Witness for C2: the immunity hypothesis holds for electric attacking
ground, and the universal part then gives effectiveness 0. -/
theorem immunity_overrides_effectiveness_witness :
    (∃ a ∈ ["electric"], ∃ d ∈ ["ground"], d ∈ immunity_list a) ∧
    calculate_type_effectiveness ["electric"] ["ground"] = 0 :=
  ⟨by decide, immunity_overrides_effectiveness.1 ["electric"] ["ground"] (by decide)⟩

/-- C3 counterexample: contrary to the claim, the type effectiveness between
pikachu and charizard is not 1.0 in both directions: electric is listed as
super effective against flying, so pikachu attacks charizard at 2.0. -/
theorem pikachu_charizard_not_neutral :
    ¬ (calculate_type_effectiveness pikachu.types charizard.types = 1 ∧
       calculate_type_effectiveness charizard.types pikachu.types = 1) := by
  intro hcl
  have h2 : calculate_type_effectiveness pikachu.types charizard.types = 2 := by
    simp [pikachu, charizard, calculate_type_effectiveness, calc_go,
      TYPE_ADVANTAGES, TYPE_IMMUNITIES] <;> norm_num
  rw [hcl.1] at h2
  norm_num at h2

/-- C3 amended: pikachu attacks charizard at effectiveness 2.0 (electric is
super effective against flying), charizard attacks pikachu at 1.0, and
`analyze_pokemon_battle` still declares charizard the winner. -/
theorem pikachu_charizard_battle :
    calculate_type_effectiveness pikachu.types charizard.types = 2 ∧
    calculate_type_effectiveness charizard.types pikachu.types = 1 ∧
    (analyze_pokemon_battle pikachu charizard).1 = "charizard" := by
  refine ⟨?_, ?_, ?_⟩
  · simp [pikachu, charizard, calculate_type_effectiveness, calc_go,
      TYPE_ADVANTAGES, TYPE_IMMUNITIES] <;> norm_num
  · simp [pikachu, charizard, calculate_type_effectiveness, calc_go,
      TYPE_ADVANTAGES, TYPE_IMMUNITIES] <;> norm_num
  · simp [analyze_pokemon_battle, calculate_type_effectiveness, calc_go,
      TYPE_ADVANTAGES, TYPE_IMMUNITIES, pikachu, charizard, max_def] <;> norm_num

/-- C4: when the verdict winner (lowercased) matches one of the two Pokémon
names (lowercased), the final frame of the animation shows exactly 0.2 health
on the winner side and exactly 0 on the loser side, for every outcome of the
random damage-frame sampling, message shuffle, frame count and timestamp. -/
theorem final_frame_winner_loser_health (p1 p2 : PokemonRecord) (res : BattleVerdict)
    (n : ℕ) (D1 D2 : List ℕ) (msgs : List String) (ts : ℕ)
    (hw : py_lower res.winner = py_lower p1.name ∨ py_lower res.winner = py_lower p2.name) :
    ∃ ff, (generate_battle_animation p1 p2 res n D1 D2 msgs ts).1.getLast? = some ff ∧
      (py_lower res.winner = py_lower p1.name → ff.p1Health = 1/5) ∧
      (py_lower res.winner ≠ py_lower p1.name → ff.p1Health = 0) ∧
      (py_lower res.winner = py_lower p2.name → ff.p2Health = 1/5) ∧
      (py_lower res.winner ≠ py_lower p2.name → ff.p2Health = 0) := by
  simp only [generate_battle_animation]
  refine ⟨_, getLast_cons_append_triple _ _ _, ?_, ?_, ?_, ?_⟩ <;> intro h <;> simp [h]

/-- Witness for C4 with the verdict naming charizard. -/
theorem final_frame_winner_loser_health_witness :
    ∃ ff, (generate_battle_animation pikachu charizard ⟨"charizard", "r"⟩ 2 [0, 1] [0, 1]
        ["m"] 0).1.getLast? = some ff ∧
      (py_lower (BattleVerdict.mk "charizard" "r").winner = py_lower pikachu.name →
        ff.p1Health = 1/5) ∧
      (py_lower (BattleVerdict.mk "charizard" "r").winner ≠ py_lower pikachu.name →
        ff.p1Health = 0) ∧
      (py_lower (BattleVerdict.mk "charizard" "r").winner = py_lower charizard.name →
        ff.p2Health = 1/5) ∧
      (py_lower (BattleVerdict.mk "charizard" "r").winner ≠ py_lower charizard.name →
        ff.p2Health = 0) :=
  final_frame_winner_loser_health pikachu charizard ⟨"charizard", "r"⟩ 2 [0, 1] [0, 1]
    ["m"] 0 (Or.inr rfl)

/-- C5: the animation always has `1 + 2 * num_frames + 3` frames (intro,
doubled battle frames, tripled final frame) and a `.gif` filename, with the
frame count drawn from 12 to 15 inclusive. -/
theorem animation_frame_count_and_format (p1 p2 : PokemonRecord) (res : BattleVerdict)
    (n : ℕ) (D1 D2 : List ℕ) (msgs : List String) (ts : ℕ)
    (h12 : 12 ≤ n) (h15 : n ≤ 15) :
    (generate_battle_animation p1 p2 res n D1 D2 msgs ts).1.length = 4 + 2 * n ∧
    ∃ stem, (generate_battle_animation p1 p2 res n D1 D2 msgs ts).2 = stem ++ ".gif" := by
  constructor
  · simp only [generate_battle_animation]
    simp [battle_frames_list_length]
    omega
  · exact ⟨"battle_" ++ toString ts, rfl⟩

/-- Witness for C5 at frame count 13. -/
theorem animation_frame_count_and_format_witness :
    (12 ≤ 13 ∧ 13 ≤ 15) ∧
    (generate_battle_animation pikachu charizard ⟨"charizard", "r"⟩ 13 [0] [0]
        ["m"] 7).1.length = 4 + 2 * 13 ∧
    ∃ stem, (generate_battle_animation pikachu charizard ⟨"charizard", "r"⟩ 13 [0] [0]
        ["m"] 7).2 = stem ++ ".gif" :=
  ⟨by norm_num,
   animation_frame_count_and_format pikachu charizard ⟨"charizard", "r"⟩ 13 [0] [0] ["m"] 7
     (by norm_num) (by norm_num)⟩

/-- C6: two attacker types that are both super effective against a
single-type defender stack multiplicatively to 4.0, and water against fire
gives 2.0. -/
theorem dual_type_stacking :
    (∀ a1 a2 d : String, d ∈ advantage_list a1 → d ∈ advantage_list a2 →
        calculate_type_effectiveness [a1, a2] [d] = 4) ∧
    calculate_type_effectiveness ["water"] ["fire"] = 2 := by
  constructor
  · intro a1 a2 d h1 h2
    unfold calculate_type_effectiveness
    rw [calc_go_step_super a1 d [a2] 1 h1, calc_go_step_super a2 d [] (1 * 2) h2]
    simp only [calc_go]
    norm_num
  · simp [calculate_type_effectiveness, calc_go, TYPE_ADVANTAGES, TYPE_IMMUNITIES]

/-- Witness for C6: water and grass are both super effective against rock,
and the combined effectiveness is 4. -/
theorem dual_type_stacking_witness :
    ("rock" ∈ advantage_list "water") ∧ ("rock" ∈ advantage_list "grass") ∧
    calculate_type_effectiveness ["water", "grass"] ["rock"] = 4 :=
  ⟨by decide, by decide, dual_type_stacking.1 "water" "grass" "rock" (by decide) (by decide)⟩

/-- C7: for both sides of `generate_health_decreases` (frame count at least 1,
final healths in `[0, 1)`, damage frames a valid sample), the cumulative
decrease sequence is non-decreasing, its last entry equals exactly 1 minus the
target final health, and the derived health `1 - decrease` stays within
`[0, 1]`. -/
theorem health_decreases_invariants
    (n : ℕ) (p1_final p2_final : ℚ) (te : TypeEff) (D1 D2 : List ℕ)
    (hn : 1 ≤ n)
    (hf1 : 0 ≤ p1_final) (hf1lt : p1_final < 1)
    (hf2 : 0 ≤ p2_final) (hf2lt : p2_final < 1)
    (hD1nd : D1.Nodup) (hD1 : ∀ f ∈ D1, f < n) (hD1len : D1.length = min 4 n)
    (hD2nd : D2.Nodup) (hD2 : ∀ f ∈ D2, f < n) (hD2len : D2.length = min 4 n) :
    (∀ i j, i ≤ j →
        (generate_health_decreases n p1_final p2_final te D1 D2).1 i ≤
        (generate_health_decreases n p1_final p2_final te D1 D2).1 j) ∧
    (generate_health_decreases n p1_final p2_final te D1 D2).1 (n - 1) = 1 - p1_final ∧
    (∀ i, 0 ≤ 1 - (generate_health_decreases n p1_final p2_final te D1 D2).1 i ∧
        1 - (generate_health_decreases n p1_final p2_final te D1 D2).1 i ≤ 1) ∧
    (∀ i j, i ≤ j →
        (generate_health_decreases n p1_final p2_final te D1 D2).2 i ≤
        (generate_health_decreases n p1_final p2_final te D1 D2).2 j) ∧
    (generate_health_decreases n p1_final p2_final te D1 D2).2 (n - 1) = 1 - p2_final ∧
    (∀ i, 0 ≤ 1 - (generate_health_decreases n p1_final p2_final te D1 D2).2 i ∧
        1 - (generate_health_decreases n p1_final p2_final te D1 D2).2 i ≤ 1) := by
  have hl1 : 1 ≤ D1.length := by omega
  have hl2 : 1 ≤ D2.length := by omega
  have h1 := side_properties n p1_final (rate_clamp te.p2_against_p1) D1
    hn hD1 hl1 hf1 hf1lt (rate_clamp_bounds _).1
  have h2 := side_properties n p2_final (rate_clamp te.p1_against_p2) D2
    hn hD2 hl2 hf2 hf2lt (rate_clamp_bounds _).1
  simp only [generate_health_decreases]
  exact ⟨h1.1, h1.2.1, h1.2.2, h2.1, h2.2.1, h2.2.2⟩

/-- Witness for C7 at four frames with damage on every frame. -/
theorem health_decreases_invariants_witness :
    (∀ i j, i ≤ j →
        (generate_health_decreases 4 0 0 ⟨1, 1⟩ [0, 1, 2, 3] [0, 1, 2, 3]).1 i ≤
        (generate_health_decreases 4 0 0 ⟨1, 1⟩ [0, 1, 2, 3] [0, 1, 2, 3]).1 j) ∧
    (generate_health_decreases 4 0 0 ⟨1, 1⟩ [0, 1, 2, 3] [0, 1, 2, 3]).1 (4 - 1) = 1 - 0 ∧
    (∀ i, 0 ≤ 1 - (generate_health_decreases 4 0 0 ⟨1, 1⟩ [0, 1, 2, 3] [0, 1, 2, 3]).1 i ∧
        1 - (generate_health_decreases 4 0 0 ⟨1, 1⟩ [0, 1, 2, 3] [0, 1, 2, 3]).1 i ≤ 1) ∧
    (∀ i j, i ≤ j →
        (generate_health_decreases 4 0 0 ⟨1, 1⟩ [0, 1, 2, 3] [0, 1, 2, 3]).2 i ≤
        (generate_health_decreases 4 0 0 ⟨1, 1⟩ [0, 1, 2, 3] [0, 1, 2, 3]).2 j) ∧
    (generate_health_decreases 4 0 0 ⟨1, 1⟩ [0, 1, 2, 3] [0, 1, 2, 3]).2 (4 - 1) = 1 - 0 ∧
    (∀ i, 0 ≤ 1 - (generate_health_decreases 4 0 0 ⟨1, 1⟩ [0, 1, 2, 3] [0, 1, 2, 3]).2 i ∧
        1 - (generate_health_decreases 4 0 0 ⟨1, 1⟩ [0, 1, 2, 3] [0, 1, 2, 3]).2 i ≤ 1) :=
  health_decreases_invariants 4 0 0 ⟨1, 1⟩ [0, 1, 2, 3] [0, 1, 2, 3]
    (by norm_num) (by norm_num) (by norm_num) (by norm_num) (by norm_num)
    (by decide) (by decide) (by decide) (by decide) (by decide) (by decide)

/-- C8: the sprite pipeline never propagates a fetch or processing error
(a missing URL or a failed fetch yields the labeled placeholder), the cache
writers silently swallow write errors, and the cache reader returns `none`
rather than raising on a failed read. -/
theorem sprite_and_cache_error_handling :
    (∀ (pokemon_name : String) (fetch : String → Except String PImage),
        get_pokemon_sprite pokemon_name none none fetch =
          placeholder_image (normalize_pokemon_name pokemon_name)) ∧
    (∀ (pokemon_name url err : String),
        get_pokemon_sprite pokemon_name none (some url) (fun _ => Except.error err) =
          placeholder_image (normalize_pokemon_name pokemon_name)) ∧
    (∀ (cache_key : String) (w : Except String Unit),
        save_cached_data cache_key w = Except.ok ()) ∧
    (∀ (cache_key : String) (w : Except String Unit),
        save_cached_image cache_key w = Except.ok ()) ∧
    (∀ (α : Type) (cache_key err : String) (file_exists : Bool),
        @get_cached_data α cache_key file_exists (Except.error err) = none) := by
  refine ⟨fun _ _ => rfl, fun _ _ _ => rfl, ?_, ?_, ?_⟩
  · intro k w
    cases w <;> rfl
  · intro k w
    cases w <;> rfl
  · intro α k e ex
    cases ex <;> rfl

/-- C9: the per-side damage rate is the opposing effectiveness clamped to
`[0.5, 2.0]`; a 0x matchup therefore gives rate 0.5 and the affected side
still strictly loses health by the last battle frame whenever its target
final health is below 1. -/
theorem damage_rate_clamped
    (n : ℕ) (p1_final p2_final : ℚ) (te : TypeEff) (D1 D2 : List ℕ)
    (hn : 1 ≤ n)
    (hf1 : 0 ≤ p1_final) (hf1lt : p1_final < 1)
    (hD1 : ∀ f ∈ D1, f < n) (hD1len : D1.length = min 4 n)
    (himm : te.p2_against_p1 = 0) :
    (∀ e : ℚ, 1/2 ≤ rate_clamp e ∧ rate_clamp e ≤ 2) ∧
    rate_clamp 0 = 1/2 ∧
    1 - (generate_health_decreases n p1_final p2_final te D1 D2).1 (n - 1) < 1 := by
  refine ⟨rate_clamp_bounds, by norm_num [rate_clamp], ?_⟩
  have hl1 : 1 ≤ D1.length := by omega
  have h1 := side_properties n p1_final (rate_clamp te.p2_against_p1) D1
    hn hD1 hl1 hf1 hf1lt (rate_clamp_bounds _).1
  simp only [generate_health_decreases]
  rw [h1.2.1]
  linarith

/-- Witness for C9 under an immune matchup. -/
theorem damage_rate_clamped_witness :
    (∀ e : ℚ, 1/2 ≤ rate_clamp e ∧ rate_clamp e ≤ 2) ∧
    rate_clamp 0 = 1/2 ∧
    1 - (generate_health_decreases 4 0 0 ⟨1, 0⟩ [0, 1, 2, 3] [0, 1, 2, 3]).1 (4 - 1) < 1 :=
  damage_rate_clamped 4 0 0 ⟨1, 0⟩ [0, 1, 2, 3] [0, 1, 2, 3]
    (by norm_num) (by norm_num) (by norm_num) (by decide) (by decide) rfl

/-- C10: when the lowercased verdict winner matches neither Pokémon name, the
animation still completes, the final frame shows both sides at exactly 0
health, and its message still announces the supplied winner name. -/
theorem unknown_winner_faints_both (p1 p2 : PokemonRecord) (res : BattleVerdict)
    (n : ℕ) (D1 D2 : List ℕ) (msgs : List String) (ts : ℕ)
    (h1 : py_lower res.winner ≠ py_lower p1.name)
    (h2 : py_lower res.winner ≠ py_lower p2.name) :
    ∃ ff, (generate_battle_animation p1 p2 res n D1 D2 msgs ts).1.getLast? = some ff ∧
      ff.p1Health = 0 ∧ ff.p2Health = 0 ∧
      ∃ rest, ff.message =
        py_capitalize (py_lower res.winner) ++ " wins the battle! " ++ rest := by
  simp only [generate_battle_animation]
  refine ⟨_, getLast_cons_append_triple _ _ _, by simp [h1], by simp [h2], ?_⟩
  refine ⟨res.reasoning.take 100 ++ (if 100 < res.reasoning.length then "..." else ""), ?_⟩
  simp [String.append_assoc]

/-- Witness for C10 with a third-party winner name. -/
theorem unknown_winner_faints_both_witness :
    ∃ ff, (generate_battle_animation pikachu charizard ⟨"missingno", "r"⟩ 2 [0, 1] [0, 1]
        ["m"] 0).1.getLast? = some ff ∧
      ff.p1Health = 0 ∧ ff.p2Health = 0 ∧
      ∃ rest, ff.message =
        py_capitalize (py_lower (BattleVerdict.mk "missingno" "r").winner) ++
          " wins the battle! " ++ rest :=
  unknown_winner_faints_both pikachu charizard ⟨"missingno", "r"⟩ 2 [0, 1] [0, 1] ["m"] 0
    (by decide) (by decide)

end PokemonAgent
